import Mathlib

/-!
Verification of the sensor-telemetry ingestion pipeline: the thread-safe
live buffer (`SensorDataBuffer` in GUI.py), the rotating/archiving/retaining
CSV logger (`Logger` in main.py), the newline-framed TCP ingestion handlers
(`SensorServer._handle_client` in GUI.py, `NetworkServer._handle_client` in
server/server.py) and the ingestion client (`NetworkClient` in
network/client.py).

The embedding is shallow and executable:

* Text is modelled as `List Char` (`Str`) so that every operation reduces in
  the kernel; Python string splitting, suffix tests and truthiness are
  re-implemented directly on `Str`.
* Instants (`datetime` values) are modelled as natural / integer numbers of
  seconds.  The textual timestamp renderings used by the code
  (`isoformat`/`fromisoformat`, `strftime`/`strptime` with the
  `%Y%m%d%H%M%S` pattern) are modelled by one injective decimal encoding
  `natEncode` with partial inverse `natParse`; the code only ever relies on
  the encode/decode round trip and on comparisons of the *decoded* instants,
  both of which the model preserves.  Strings that are not pure digit
  strings decode to `none`, modelling `ValueError` on unparsable input.
* Python `float` values flowing through messages are modelled as integers
  (`Int`); none of the verified properties computes with the numeric value,
  it is only parsed, stored and compared for equality.
* Filesystem state (the open CSV segment, the archive directory) is explicit
  record state; one CSV record is a `List Str` of cells.
-/

/-- Characters of a piece of text; Python `str` is modelled as `List Char`
so that all operations are kernel-computable. -/
abbrev Str := List Char

/-- The decimal digit character for `d < 10` (any larger argument is clamped
to `'9'`; it is never used that way). -/
def digitChar (d : Nat) : Char :=
  match d with
  | 0 => '0' | 1 => '1' | 2 => '2' | 3 => '3' | 4 => '4'
  | 5 => '5' | 6 => '6' | 7 => '7' | 8 => '8' | _ => '9'

/-- Numeric value of a decimal digit character, `none` on a non-digit. -/
def digitVal (c : Char) : Option Nat :=
  if 48 ≤ c.toNat ∧ c.toNat ≤ 57 then some (c.toNat - 48) else none

/-- Little-endian decimal digit expansion, with explicit fuel so the
recursion is structural (and hence kernel-reducible). -/
def natDigitsLE (fuel n : Nat) : List Char :=
  match fuel with
  | 0 => []
  | f + 1 => if n = 0 then [] else digitChar (n % 10) :: natDigitsLE f (n / 10)

/-- Injective rendering of an instant as a digit string.  This models the
textual timestamp formats of the source (`datetime.isoformat` and
`strftime('%Y%m%d%H%M%S')`): an injective encoding of instants whose inverse
fails exactly on malformed text. -/
def natEncode (n : Nat) : Str :=
  if n = 0 then ['0'] else natDigitsLE n n

/-- Little-endian digit-string evaluation; `none` as soon as a non-digit
appears. -/
def parseLE : Str → Option Nat
  | [] => some 0
  | c :: cs =>
    match digitVal c, parseLE cs with
    | some d, some m => some (d + 10 * m)
    | _, _ => none

/-- Partial inverse of `natEncode`; models `datetime.fromisoformat` and
`datetime.strptime(·, '%Y%m%d%H%M%S')`, which raise `ValueError` (here:
return `none`) on text that is not a rendered instant. -/
def natParse (s : Str) : Option Nat :=
  if s = [] then none else parseLE s

/-- Repeated `s.split(sep, 1)`: cut a character list at every occurrence of
`sep` (Python `str.split(sep)`); the result is always non-empty. -/
def splitSep (sep : Char) : Str → List Str
  | [] => [[]]
  | c :: cs =>
    let r := splitSep sep cs
    if c = sep then [] :: r
    else
      match r with
      | [] => [[c]]
      | x :: xs => (c :: x) :: xs

/-- Python `str.endswith(suffix)` on the `Str` model. -/
def strEndsWith (s suffix : Str) : Bool :=
  decide (suffix.length ≤ s.length) && decide (s.drop (s.length - suffix.length) = suffix)

/-- Python truthiness of an optional string: `None` and `""` are falsy. -/
def pyTruthy (o : Option Str) : Bool :=
  match o with
  | none => false
  | some s => decide (s ≠ [])

/-- Python `a or b` on optional strings: `a` when truthy, else `b`. -/
def pyOr (a b : Option Str) : Option Str :=
  if pyTruthy a then a else b

/-- The last `n` elements of a list (Python `l[-n:]` for `n > 0`). -/
def takeLast (n : Nat) (l : List α) : List α := l.drop (l.length - n)

/-- Python `l[-n:]` including the `n = 0` corner: `l[-0:]` is `l[0:]`, the
whole list, not the empty list. -/
def pySliceLastN (l : List α) (n : Nat) : List α :=
  if n = 0 then l else takeLast n l

/-! ## Live Buffer: `SensorDataBuffer` (src/GUI.py lines 120-182) -/

/-- A JSON scalar as it can appear in the `value` field of an inbound
message: a number or a string (numbers are modelled as integers, see the
header comment). -/
inductive JVal where
  | num (n : Int)
  | str (s : Str)
deriving DecidableEq, Repr

/-- An inbound message dictionary, with exactly the keys `add_reading`
reads via `msg.get(...)`; a missing key is `none`. -/
structure Msg where
  sensor : Option Str := none
  sensor_id : Option Str := none
  timestamp : Option Str := none
  value : Option JVal := none
  unit : Option Str := none
deriving DecidableEq, Repr

/-- Exceptions caught by `add_reading`'s `except (ValueError, TypeError)`
clause. -/
inductive PyExc where
  | valueError
  | typeError
deriving DecidableEq, Repr

/-- Python `float(x)` on an optional JSON scalar: `float(None)` raises
`TypeError`; `float` of an unparsable string raises `ValueError`. -/
def pyFloat (v : Option JVal) : Except PyExc Int :=
  match v with
  | none => .error .typeError
  | some (.num n) => .ok n
  | some (.str s) =>
    match natParse s with
    | some n => .ok (n : Int)
    | none => .error .valueError

/-- One stored reading of a source's history: `(timestamp, value, unit)`
exactly as the tuple appended in `add_reading`.  The unit is optional
because `msg.get("unit")` can be `None`. -/
abbrev Entry := Nat × Int × Option Str

/-- First-match association-list lookup, modelling Python `dict` access. -/
def lookupAssoc (d : List (Option Str × List Entry)) (k : Option Str) : Option (List Entry) :=
  match d with
  | [] => none
  | (k', v) :: rest => if k' = k then some v else lookupAssoc rest k

/-- Update the binding of `k` in place, appending a fresh binding if the key
is absent (Python `dict` assignment). -/
def setAssoc (d : List (Option Str × List Entry)) (k : Option Str) (v : List Entry) :
    List (Option Str × List Entry) :=
  match d with
  | [] => [(k, v)]
  | (k', v') :: rest => if k' = k then (k, v) :: rest else (k', v') :: setAssoc rest k v

/-- State of `SensorDataBuffer`: the per-source history dictionary and the
history cap (`max_history_length`, set to 100 by `__init__`).  The
dictionary key is `Option Str` because Python happily keys the dict by
`None` when both identifier fields are missing. -/
structure SensorDataBuffer where
  data : List (Option Str × List Entry) := []
  max_history_length : Nat := 100
deriving DecidableEq, Repr

namespace SensorDataBuffer

/-- A freshly constructed buffer (`SensorDataBuffer.__init__`). -/
def init : SensorDataBuffer := {}

/-- The body of `add_reading` up to the `try`/`except`: every step that can
raise happens before the dictionary is mutated, so a failure leaves the
state untouched.  `now` models `datetime.now()`. -/
def add_readingChecked (b : SensorDataBuffer) (msg : Msg) (now : Nat) :
    Except PyExc SensorDataBuffer :=
  let sensor_id := pyOr msg.sensor msg.sensor_id
  let timestamp_str := msg.timestamp
  match pyFloat msg.value with
  | .error e => .error e
  | .ok value =>
    let unit := msg.unit
    let ts : Except PyExc Nat :=
      match timestamp_str with
      | some s =>
        if s = [] then .ok now
        else
          match natParse s with
          | some t => .ok t
          | none => .error .valueError
      | none => .ok now
    match ts with
    | .error e => .error e
    | .ok timestamp =>
      let hist := (lookupAssoc b.data sensor_id).getD []
      let hist := hist ++ [(timestamp, value, unit)]
      let hist :=
        if b.max_history_length < hist.length then pySliceLastN hist b.max_history_length
        else hist
      .ok { b with data := setAssoc b.data sensor_id hist }

/-- `add_reading`: the body above wrapped in the catch-all `except` clauses;
a raised exception is printed and swallowed, leaving the buffer unchanged. -/
def add_reading (b : SensorDataBuffer) (msg : Msg) (now : Nat) : SensorDataBuffer :=
  match add_readingChecked b msg now with
  | .ok b' => b'
  | .error _ => b

/-- The stored history of one source (empty when the key is absent). -/
def histOf (b : SensorDataBuffer) (k : Option Str) : List Entry :=
  (lookupAssoc b.data k).getD []

end SensorDataBuffer

/-! ## Ingestion handlers: newline framing and acknowledgement
(`NetworkServer._handle_client`, src/server/server.py lines 40-60, and
`SensorServer._handle_client`, src/GUI.py lines 72-117) -/

/-- What `json.loads` makes of one frame: a JSON object (a dict, modelled
as `Msg`), some other valid JSON value (number, string, array, boolean,
null), or a decode failure (`json.JSONDecodeError`). -/
inductive ParseOutcome where
  | objectMsg (m : Msg)
  | nonObject
  | decodeError
deriving DecidableEq, Repr

/-- The acknowledgement bytes a handler sends for one frame: the fixed
token exactly when the frame decoded to a JSON object, nothing otherwise. -/
def ackForObject (ackBytes : Str) (o : ParseOutcome) : Option Str :=
  match o with
  | .objectMsg _ => some ackBytes
  | _ => none

/-- Whether the outcome is a decoded non-object — the case whose attribute
access (`parsed.items()` / `msg.get`) raises `AttributeError`. -/
def ParseOutcome.isNonObject : ParseOutcome → Bool
  | .nonObject => true
  | _ => false

namespace NetworkServer

/-- The inner `while "\n" in buffer` loop of `NetworkServer._handle_client`
over the complete frames of one batch.  A frame that decodes to a JSON
object is printed and acknowledged with the bare bytes `ACK`; a frame that
fails to decode is reported and the loop continues (the inner `except`
catches exactly `json.JSONDecodeError`); a frame that decodes to a
non-object raises `AttributeError` at `parsed.items()`, which the inner
clause does not catch — the loop aborts (second component `true`) and no
later frame of the batch is reached. -/
def processLines (parse : Str → ParseOutcome) : List Str → List (Str × Option Str) × Bool
  | [] => ([], false)
  | l :: ls =>
    match parse l with
    | .objectMsg _ =>
      ((l, some "ACK".data) :: (processLines parse ls).1, (processLines parse ls).2)
    | .decodeError =>
      ((l, none) :: (processLines parse ls).1, (processLines parse ls).2)
    | .nonObject => ([(l, none)], true)

/-- The receive loop of `NetworkServer._handle_client`: each chunk is
appended to the carry-over buffer and the complete frames are processed;
when the inner loop aborts, the escaping exception is caught by the
handler's outer `except Exception` and the whole connection handling ends —
the remaining buffer and all later chunks are dropped.  An empty chunk
models `recv` returning no bytes: the peer closed and the loop breaks. -/
def recvLoop (parse : Str → ParseOutcome) : Str → List Str → List (Str × Option Str)
  | _, [] => []
  | buf, chunk :: rest =>
    if chunk = [] then []
    else
      if (processLines parse ((splitSep '\n' (buf ++ chunk)).dropLast)).2
      then (processLines parse ((splitSep '\n' (buf ++ chunk)).dropLast)).1
      else (processLines parse ((splitSep '\n' (buf ++ chunk)).dropLast)).1
           ++ recvLoop parse ((splitSep '\n' (buf ++ chunk)).getLastD []) rest

/-- `NetworkServer._handle_client` over a connection's chunk sequence,
recording per processed frame the bytes (if any) written back for it. -/
def handle_client (parse : Str → ParseOutcome) (chunks : List Str) :
    List (Str × Option Str) :=
  recvLoop parse [] chunks

end NetworkServer

namespace SensorServer

/-- The receive loop of `SensorServer._handle_client` (GUI.py): same
framing, but the per-frame `try` ends with a catch-all `except Exception`,
so every failing frame is reported and the loop continues with the next
frame: an undecodable frame hits the `json.JSONDecodeError` clause, and a
frame decoding to a non-object makes the data callback raise
`AttributeError` at `msg.get` before the acknowledgement is written, which
the catch-all swallows.  A frame that decodes to an object is handed to the
data callback and acknowledged with `ACK\n`. -/
def recvLoop (parse : Str → ParseOutcome) : Str → List Str → List (Str × Option Str)
  | _, [] => []
  | buf, chunk :: rest =>
    if chunk = [] then []
    else
      ((splitSep '\n' (buf ++ chunk)).dropLast.map fun line =>
        (line,
          match parse line with
          | .objectMsg _ => some ("ACK\n".data)
          | .nonObject => none
          | .decodeError => none))
      ++ recvLoop parse ((splitSep '\n' (buf ++ chunk)).getLastD []) rest

/-- `SensorServer._handle_client` over a connection's chunk sequence. -/
def handle_client (parse : Str → ParseOutcome) (chunks : List Str) :
    List (Str × Option Str) :=
  recvLoop parse [] chunks

end SensorServer

/-! ## Ingestion client: `NetworkClient.send` (src/network/client.py lines 45-61) -/

/-- Result of one blocking `recv` call. -/
inductive RecvRes where
  | bytes (s : Str)
  | timedOut
  | sockErr
deriving DecidableEq, Repr

/-- What the socket does during one `NetworkClient.send` call: whether the
client is connected, whether `sendall` raises, and what the single
acknowledgement `recv` returns. -/
structure SendAttempt where
  connected : Bool
  sendallFails : Bool
  recv : RecvRes
deriving DecidableEq, Repr

namespace NetworkClient

/-- `NetworkClient.send`: raises `ConnectionError` (`.error ()`) when not
connected; returns `False` on a socket timeout or error during the write or
the acknowledgement read; otherwise returns `True` — whatever bytes the
read produced, including none at all. -/
def send (a : SendAttempt) : Except Unit Bool :=
  if a.connected = false then .error ()
  else if a.sendallFails then .ok false
  else
    match a.recv with
    | .bytes _ => .ok true
    | .timedOut => .ok false
    | .sockErr => .ok false

end NetworkClient

/-! ## Durable Logger (src/main.py lines 160-349) -/

/-- One CSV record: a list of cells. -/
abbrev Rec := List Str

namespace Logger

/-- The configuration options `Logger.__init__` reads from `config.json`,
with the defaults it supplies (`rotate_after_lines` has no default: absent
means disabled). -/
structure Config where
  buffer_size : Nat := 100
  rotate_every_hours : Nat := 24
  max_size_mb : Nat := 10
  rotate_after_lines : Option Nat := none
  retention_days : Nat := 30
deriving DecidableEq, Repr

/-- Logger state: the in-memory batch (`self.buffer`), the open-segment
bookkeeping (`current_file`/`current_writer`/the segment file on disk) and
the archive directory contents.  `now` is the wall clock (`datetime.now()`),
advanced only from outside; the archive list holds the records of each
rotated segment in creation order (the zip container of a rotation holds
exactly the rows the segment had). -/
structure State where
  config : Config
  buffer : List Rec := []
  writerSet : Bool := false
  fileOpen : Bool := false
  filePresent : Bool := false
  fileRows : List Rec := []
  archives : List (List Rec) := []
  last_rotation_time : Int := 0
  line_count : Nat := 0
  now : Int := 0
deriving DecidableEq, Repr

/-- The header record `start` writes into a fresh segment. -/
def header : Rec := ["timestamp".data, "sensor_id".data, "value".data, "unit".data]

/-- A freshly constructed `Logger` (its `__init__` after reading the
config): empty batch, no open file, `last_rotation_time = datetime.now()`. -/
def init (cfg : Config) (t0 : Int) : State :=
  { config := cfg, last_rotation_time := t0, now := t0 }

/-- Byte size of one CSV record as written to disk: the cells, the
separating commas and the line terminator. -/
def csvRecBytes (r : Rec) : Nat := (r.map List.length).sum + r.length + 1

/-- On-disk byte size of a segment (`os.path.getsize`); only flushed
records count. -/
def fileSizeBytes (rows : List Rec) : Nat := (rows.map csvRecBytes).sum

/-- `Logger.start`: open (creating if absent) the segment file, write the
header row only when the file did not pre-exist, reset the rotation clock
and recover `line_count` as the number of lines minus the header. -/
def start (s : State) : State :=
  let file_exists := s.filePresent
  let rows := if file_exists then s.fileRows else [header]
  { s with filePresent := true, fileOpen := true, writerSet := true,
           fileRows := rows,
           last_rotation_time := s.now,
           line_count := rows.length - 1 }

/-- `Logger._flush`: append the pending batch to the open segment, advance
the line counter and clear the batch; a no-op when the writer is unset or
the batch is empty. -/
def flush (s : State) : State :=
  if s.writerSet = true ∧ s.buffer ≠ [] then
    { s with fileRows := s.fileRows ++ s.buffer,
             line_count := s.line_count + s.buffer.length,
             buffer := [] }
  else s

/-- `Logger.stop`: flush, then close the segment file handle (the csv
writer object is left in place, exactly as in the source). -/
def stop (s : State) : State :=
  if (flush s).fileOpen = true then { flush s with fileOpen := false } else flush s

/-- `Logger._needs_rotation`: elapsed time since the last rotation, on-disk
segment size, or — only when configured non-zero (Python truthiness of
`rotate_after_lines`) — the flushed line count. -/
def needs_rotation (s : State) : Bool :=
  decide ((s.config.rotate_every_hours : Int) * 3600 ≤ s.now - s.last_rotation_time)
  || (s.filePresent && decide (s.config.max_size_mb * 1048576 ≤ fileSizeBytes s.fileRows))
  || (match s.config.rotate_after_lines with
      | some n => decide (0 < n) && decide (n ≤ s.line_count)
      | none => false)

/-- `Logger._rotate`: stop (which flushes), move the segment file — if it
still exists — into the archive directory under a rotation-stamped name,
compress it there (`_archive_zip`) deleting the uncompressed intermediate,
then start a fresh segment. -/
def rotate (s : State) : State :=
  start
    (if (stop s).filePresent = true then
       { stop s with
         archives := (stop s).archives ++ [(stop s).fileRows],
         fileRows := [], filePresent := false }
     else stop s)

/-- A reading as `log_reading` receives it; `value` carries the decimal
rendering the csv writer would store for the float. -/
structure Reading where
  sensor_id : Str
  timestamp : Nat
  value : Str
  unit : Str
deriving DecidableEq, Repr

/-- The CSV record `log_reading` builds:
`[timestamp.isoformat(), sensor_id, value, unit]`. -/
def mkRow (r : Reading) : Rec :=
  [natEncode r.timestamp, r.sensor_id, r.value, r.unit]

/-- The first two statements of `log_reading`'s body: append the row to the
in-memory batch and flush when the batch has reached `buffer_size`. -/
def logMid (s : State) (r : Reading) : State :=
  if s.config.buffer_size ≤ (s.buffer ++ [mkRow r]).length
  then flush { s with buffer := s.buffer ++ [mkRow r] }
  else { s with buffer := s.buffer ++ [mkRow r] }

/-- `Logger.log_reading`: append the row to the batch and flush when the
batch has reached `buffer_size` (`logMid`); then — and only then —
evaluate the rotation trigger and rotate if it fires. -/
def log_reading (s : State) (r : Reading) : State :=
  if needs_rotation (logMid s r) then rotate (logMid s r) else logMid s r

/-- A queried row as `csv.DictReader` hands it back: the four cells keyed
by the standard header. -/
structure RowDict where
  timestamp : Str
  sensor_id : Str
  value : Str
  unit : Str
deriving DecidableEq, Repr

/-- `DictReader` row construction for the four-column layout this logger
writes (records of any other arity are not produced by it). -/
def recToDict : Rec → Option RowDict
  | [t, s, v, u] => some ⟨t, s, v, u⟩
  | _ => none

/-- The sensor filter of `read_logs`:
`not sensor_id or row["sensor_id"] == sensor_id` — a `None` or empty-string
filter is falsy and matches every row. -/
def sensorMatches (filt : Option Str) (sid : Str) : Bool :=
  match filt with
  | none => true
  | some f => decide (f = []) || decide (sid = f)

/-- The per-row body of `Logger._parse_csv`'s loop: the row is yielded when
its timestamp parses, lies in the inclusive `[start, end]` range and passes
the sensor filter; a row with an unparsable timestamp is skipped with a
warning and the scan continues. -/
def rowFilter (tStart tEnd : Nat) (filt : Option Str) (rec : Rec) : Option RowDict :=
  match recToDict rec with
  | none => none
  | some d =>
    match natParse d.timestamp with
    | none => none
    | some ts =>
      if tStart ≤ ts ∧ ts ≤ tEnd ∧ sensorMatches filt d.sensor_id = true
      then some d else none

/-- `Logger._parse_csv` on one segment's records: `DictReader` consumes the
header line, then scans the remaining rows with `rowFilter`. -/
def parse_csv (file : List Rec) (tStart tEnd : Nat) (filt : Option Str) : List RowDict :=
  match file with
  | [] => []
  | _hdr :: rows => rows.filterMap (rowFilter tStart tEnd filt)

/-- One member of a zip container: its name and the CSV records inside. -/
abbrev ZipEntry := Str × List Rec

/-- `Logger._parse_zip`: every `.csv` member of the container is scanned
with the same row filter. -/
def parse_zip (entries : List ZipEntry) (tStart tEnd : Nat) (filt : Option Str) :
    List RowDict :=
  (entries.filter fun e => strEndsWith e.1 ".csv".data).flatMap
    fun e => parse_csv e.2 tStart tEnd filt

/-- `Logger.read_logs`: scan every `.csv` file of the log directory, then
every `.zip` container of the archive directory. -/
def read_logs (csvFiles : List (List Rec)) (zipFiles : List (List ZipEntry))
    (tStart tEnd : Nat) (filt : Option Str) : List RowDict :=
  (csvFiles.flatMap fun f => parse_csv f tStart tEnd filt)
  ++ (zipFiles.flatMap fun z => parse_zip z tStart tEnd filt)

/-- A file of the archive directory: its name and its modification time. -/
structure ArchiveFile where
  name : Str
  mtime : Int
deriving DecidableEq, Repr

/-- The date string `delete_old_logs` extracts from an archive file name:
`name.split('_')[-1].split('.')[0]`. -/
def nameDateSuffix (name : Str) : Str :=
  ((splitSep '.' ((splitSep '_' name).getLastD [])).headD [])

/-- The timestamp `delete_old_logs` attributes to an archive file: the
parsed name suffix, falling back to the file's modification time when the
suffix is unparsable. -/
def fileDate (f : ArchiveFile) : Int :=
  match natParse (nameDateSuffix f.name) with
  | some t => (t : Int)
  | none => f.mtime

/-- `Logger.delete_old_logs`: remove every `.zip` file of the archive
directory whose attributed timestamp is strictly older than
`now - retention_days`; the result is the directory contents after the
sweep. -/
def delete_old_logs (now : Int) (retention_days : Nat) (files : List ArchiveFile) :
    List ArchiveFile :=
  let threshold := now - (retention_days : Int) * 86400
  files.filter fun f =>
    !(strEndsWith f.name ".zip".data && decide (fileDate f < threshold))

end Logger

/-! ## Server-mode fan-out (src/GUI.py lines 321-329 with src/main.py server mode) -/

/-- The mutable state reachable from the server process's data path: the
GUI's live buffer and refresh queue, and the process-wide durable `Logger`
instance created by main.py.  In server mode main.py starts the GUI and
never routes inbound readings to the logger; the only data-path code is
`SensorServerGUI.handle_data_from_server_thread`. -/
structure ServerSide where
  buffer : SensorDataBuffer
  guiQueue : List Str
  logger : Logger.State
deriving Repr

namespace ServerSide

/-- `SensorServerGUI.handle_data_from_server_thread`: add the message to the
live buffer, then put the resolved identifier on the GUI refresh queue when
it is truthy.  No other state is touched — in particular the durable
logger is not. -/
def handle_data_from_server_thread (st : ServerSide) (msg : Msg) (now : Nat) : ServerSide :=
  let b := st.buffer.add_reading msg now
  let sensor_id := pyOr msg.sensor msg.sensor_id
  { st with buffer := b,
            guiQueue :=
              match sensor_id with
              | some s => if s ≠ [] then st.guiQueue ++ [s] else st.guiQueue
              | none => st.guiQueue }

/-- Whether a reading's row is anywhere in the durable logger's custody:
the in-memory batch, the open segment, or an archive container. -/
def loggerHolds (L : Logger.State) (row : Rec) : Prop :=
  row ∈ L.buffer ∨ row ∈ L.fileRows ∨ row ∈ L.archives.flatten

instance (L : Logger.State) (row : Rec) : Decidable (loggerHolds L row) := by
  unfold loggerHolds
  infer_instance

end ServerSide

/-! ## Concrete helpers for the statements below -/

/-- A fully well-formed inbound message for source `sid` carrying a numeric
value, a parsable timestamp and a unit — the shape a healthy client sends. -/
def validMsg (sid : Str) (t : Nat) (v : Int) (u : Str) : Msg :=
  { sensor_id := some sid, timestamp := some (natEncode t),
    value := some (.num v), unit := some u }

/-- The entries that a list of `(timestamp, value, unit)` readings turns
into when buffered. -/
def entriesOf (items : List (Nat × Int × Str)) : List Entry :=
  items.map fun it => (it.1, it.2.1, some it.2.2)

/-- Feed a sequence of well-formed readings for one source through
`add_reading`, starting from a fresh buffer with history cap `C`. -/
def feedBuffer (C : Nat) (sid : Str) (items : List (Nat × Int × Str)) : SensorDataBuffer :=
  items.foldl
    (fun b it => b.add_reading (validMsg sid it.1 it.2.1 it.2.2) 0)
    { data := [], max_history_length := C }

/-- A sample frame decoder for concrete runs of the handler loops: `ok`
decodes to an (empty) JSON object, `5` decodes to a non-object JSON value,
anything else fails to decode. -/
def sampleParse : Str → ParseOutcome :=
  fun s =>
    if s = "ok".data then .objectMsg {}
    else if s = "5".data then .nonObject
    else .decodeError
lemma digitVal_digitChar (d : Nat) (h : d < 10) : digitVal (digitChar d) = some d := by
  interval_cases d <;> decide

lemma parseLE_natDigitsLE (fuel : Nat) : ∀ n, n ≤ fuel → 0 < n →
    parseLE (natDigitsLE fuel n) = some n := by
  induction fuel with
  | zero => intro n h h0; omega
  | succ f ih =>
    intro n h h0
    unfold natDigitsLE
    have hn : n ≠ 0 := by omega
    simp only [hn, if_false]
    by_cases hq : n / 10 = 0
    · have hnil : natDigitsLE f (n / 10) = [] := by
        cases f <;> simp [natDigitsLE, hq]
      rw [hnil]
      simp [parseLE, digitVal_digitChar (n % 10) (Nat.mod_lt _ (by norm_num))]
      omega
    · have hle : n / 10 ≤ f := by
        have := Nat.div_lt_self h0 (show 1 < 10 by norm_num)
        omega
      have hrec := ih (n / 10) hle (Nat.pos_of_ne_zero hq)
      simp [parseLE, hrec, digitVal_digitChar (n % 10) (Nat.mod_lt _ (by norm_num))]
      omega

/-- The timestamp codec round-trips: a rendered instant always re-parses to
itself (the `fromisoformat ∘ isoformat` identity the logger relies on). -/
theorem natParse_natEncode (n : Nat) : natParse (natEncode n) = some n := by
  unfold natEncode
  by_cases h : n = 0
  · subst h; decide
  · have h0 : 0 < n := Nat.pos_of_ne_zero h
    have hne : natDigitsLE n n ≠ [] := by
      cases n with
      | zero => omega
      | succ m => simp [natDigitsLE]
    rw [if_neg h]
    unfold natParse
    rw [if_neg hne]
    exact parseLE_natDigitsLE n n le_rfl h0

lemma natEncode_ne_nil (n : Nat) : natEncode n ≠ [] := by
  unfold natEncode
  by_cases h : n = 0
  · simp [h]
  · rw [if_neg h]
    cases n with
    | zero => omega
    | succ m => simp [natDigitsLE]


lemma length_takeLast (n : Nat) (l : List α) :
    (takeLast n l).length = min n l.length := by
  simp [takeLast]
  omega


lemma lookupAssoc_setAssoc_self (d : List (Option Str × List Entry)) (k : Option Str)
    (v : List Entry) : lookupAssoc (setAssoc d k v) k = some v := by
  induction d with
  | nil => simp [setAssoc, lookupAssoc]
  | cons h t ih =>
    obtain ⟨k', v'⟩ := h
    by_cases hk : k' = k
    · simp [setAssoc, lookupAssoc, hk]
    · simp [setAssoc, lookupAssoc, hk, ih]

/-! ## Claim C9 -/

/-- C9: `NetworkClient.send` returns `True` exactly when the frame write
and the single blocking acknowledgement read both complete without a socket
error or timeout — whatever bytes the read produced (zero bytes from a
closed peer, or anything other than `ACK`, included); the acknowledgement
content is never validated. -/
theorem c9_send_true_iff_write_and_read_complete (a : SendAttempt)
    (h : a.connected = true) :
    NetworkClient.send a = .ok true ↔
      a.sendallFails = false ∧ ∃ s, a.recv = RecvRes.bytes s := by
  unfold NetworkClient.send
  rw [h]
  cases hsf : a.sendallFails with
  | true => simp [hsf]
  | false =>
    cases hr : a.recv <;> simp [hr]

/-- Witness for C9: a send whose acknowledgement read returns zero bytes
(peer already closed) still reports success. -/
theorem c9_send_true_iff_write_and_read_complete_witness :
    NetworkClient.send ⟨true, false, RecvRes.bytes []⟩ = .ok true :=
  (c9_send_true_iff_write_and_read_complete ⟨true, false, RecvRes.bytes []⟩ rfl).mpr
    ⟨rfl, [], rfl⟩

/-! ## Claim C8 -/

lemma processLines_resp (parse : Str → ParseOutcome) :
    ∀ (ls : List Str) (f : Str) (resp : Option Str),
      (f, resp) ∈ (NetworkServer.processLines parse ls).1 →
      resp = ackForObject "ACK".data (parse f) := by
  intro ls
  induction ls with
  | nil => intro f resp h; simp [NetworkServer.processLines] at h
  | cons l ls ih =>
    intro f resp h
    unfold NetworkServer.processLines at h
    cases hp : parse l with
    | objectMsg m =>
      simp only [hp] at h
      rcases List.mem_cons.1 h with heq | hmem
      · cases heq
        rw [hp]
        rfl
      · exact ih f resp hmem
    | decodeError =>
      simp only [hp] at h
      rcases List.mem_cons.1 h with heq | hmem
      · cases heq
        rw [hp]
        rfl
      · exact ih f resp hmem
    | nonObject =>
      simp only [hp, List.mem_singleton] at h
      cases h
      rw [hp]
      rfl

lemma processLines_no_nonObject_of_not_aborted (parse : Str → ParseOutcome) :
    ∀ (ls : List Str), (NetworkServer.processLines parse ls).2 = false →
      ∀ p ∈ (NetworkServer.processLines parse ls).1, (parse p.1).isNonObject = false := by
  intro ls
  induction ls with
  | nil => intro _ p hp; simp [NetworkServer.processLines] at hp
  | cons l ls ih =>
    intro hab p hp
    unfold NetworkServer.processLines at hab hp
    cases hpl : parse l with
    | objectMsg m =>
      simp only [hpl] at hab hp
      rcases List.mem_cons.1 hp with heq | hmem
      · cases heq; simp [hpl, ParseOutcome.isNonObject]
      · exact ih hab p hmem
    | decodeError =>
      simp only [hpl] at hab hp
      rcases List.mem_cons.1 hp with heq | hmem
      · cases heq; simp [hpl, ParseOutcome.isNonObject]
      · exact ih hab p hmem
    | nonObject =>
      simp only [hpl] at hab
      exact Bool.noConfusion hab

lemma processLines_nonObject_only_last (parse : Str → ParseOutcome) :
    ∀ (ls : List Str),
      ∀ p ∈ (NetworkServer.processLines parse ls).1.dropLast,
        (parse p.1).isNonObject = false := by
  intro ls
  induction ls with
  | nil => intro p hp; simp [NetworkServer.processLines] at hp
  | cons l ls ih =>
    intro p hp
    unfold NetworkServer.processLines at hp
    cases hpl : parse l with
    | objectMsg m =>
      simp only [hpl] at hp
      cases hrec : (NetworkServer.processLines parse ls).1 with
      | nil => rw [hrec] at hp; simp at hp
      | cons r rs =>
        rw [hrec] at hp
        rw [show ((l, some "ACK".data) :: r :: rs).dropLast
            = (l, some "ACK".data) :: (r :: rs).dropLast from rfl] at hp
        rcases List.mem_cons.1 hp with heq | hmem
        · cases heq; simp [hpl, ParseOutcome.isNonObject]
        · rw [← hrec] at hmem; exact ih p hmem
    | decodeError =>
      simp only [hpl] at hp
      cases hrec : (NetworkServer.processLines parse ls).1 with
      | nil => rw [hrec] at hp; simp at hp
      | cons r rs =>
        rw [hrec] at hp
        rw [show ((l, (none : Option Str)) :: r :: rs).dropLast
            = (l, (none : Option Str)) :: (r :: rs).dropLast from rfl] at hp
        rcases List.mem_cons.1 hp with heq | hmem
        · cases heq; simp [hpl, ParseOutcome.isNonObject]
        · rw [← hrec] at hmem; exact ih p hmem
    | nonObject =>
      simp only [hpl] at hp
      simp at hp

lemma net_recvLoop_resp (parse : Str → ParseOutcome) :
    ∀ (chunks : List Str) (buf : Str) (f : Str) (resp : Option Str),
      (f, resp) ∈ NetworkServer.recvLoop parse buf chunks →
      resp = ackForObject "ACK".data (parse f) := by
  intro chunks
  induction chunks with
  | nil => intro buf f resp h; simp [NetworkServer.recvLoop] at h
  | cons c rest ih =>
    intro buf f resp h
    unfold NetworkServer.recvLoop at h
    by_cases hc : c = []
    · simp [hc] at h
    · rw [if_neg hc] at h
      cases hab : (NetworkServer.processLines parse
          ((splitSep '\n' (buf ++ c)).dropLast)).2 with
      | true =>
        rw [hab] at h
        simp only [if_true] at h
        exact processLines_resp parse _ f resp h
      | false =>
        rw [hab] at h
        simp only [Bool.false_eq_true, if_false] at h
        rcases List.mem_append.1 h with h1 | h2
        · exact processLines_resp parse _ f resp h1
        · exact ih _ f resp h2

lemma net_recvLoop_nonObject_only_last (parse : Str → ParseOutcome) :
    ∀ (chunks : List Str) (buf : Str),
      ∀ p ∈ (NetworkServer.recvLoop parse buf chunks).dropLast,
        (parse p.1).isNonObject = false := by
  intro chunks
  induction chunks with
  | nil => intro buf p hp; simp [NetworkServer.recvLoop] at hp
  | cons c rest ih =>
    intro buf p hp
    unfold NetworkServer.recvLoop at hp
    by_cases hc : c = []
    · simp [hc] at hp
    · rw [if_neg hc] at hp
      cases hab : (NetworkServer.processLines parse
          ((splitSep '\n' (buf ++ c)).dropLast)).2 with
      | true =>
        rw [hab] at hp
        simp only [if_true] at hp
        exact processLines_nonObject_only_last parse _ p hp
      | false =>
        rw [hab] at hp
        simp only [Bool.false_eq_true, if_false] at hp
        by_cases hrec : NetworkServer.recvLoop parse
            ((splitSep '\n' (buf ++ c)).getLastD []) rest = []
        · rw [hrec, List.append_nil] at hp
          exact processLines_nonObject_only_last parse _ p hp
        · rw [List.dropLast_append_of_ne_nil _ hrec] at hp
          rcases List.mem_append.1 hp with h1 | h2
          · exact processLines_no_nonObject_of_not_aborted parse _ hab p h1
          · exact ih _ p h2

lemma gui_recvLoop_resp (parse : Str → ParseOutcome) :
    ∀ (chunks : List Str) (buf : Str) (f : Str) (resp : Option Str),
      (f, resp) ∈ SensorServer.recvLoop parse buf chunks →
      resp = ackForObject ("ACK\n".data) (parse f) := by
  intro chunks
  induction chunks with
  | nil => intro buf f resp h; simp [SensorServer.recvLoop] at h
  | cons c rest ih =>
    intro buf f resp h
    unfold SensorServer.recvLoop at h
    by_cases hc : c = []
    · simp [hc] at h
    · rw [if_neg hc] at h
      rcases List.mem_append.1 h with h1 | h2
      · rcases List.mem_map.1 h1 with ⟨line, _, heq⟩
        cases heq
        cases hp : parse f <;> simp [hp, ackForObject]
      · exact ih _ f resp h2

/-- Counterexample to C8: the frame `5` is valid JSON but not an object, so
`NetworkServer._handle_client`'s `parsed.items()` raises `AttributeError`,
which its JSON-only inner `except` does not catch: the handler loop is
terminated by the outer `except Exception` — no acknowledgement is sent
and the following complete, successfully-parsing frame `ok` is never
processed, falsifying "the handler loop continues with the next frame".
The GUI handler, whose per-frame catch-all swallows the error, does
continue and acknowledges `ok`. -/
theorem c8_non_object_frame_aborts_net_handler_counterexample :
    NetworkServer.handle_client sampleParse ["5\nok\n".data]
      = [("5".data, none)] ∧
    sampleParse "ok".data = ParseOutcome.objectMsg {} ∧
    SensorServer.handle_client sampleParse ["5\nok\n".data]
      = [("5".data, none), ("ok".data, some ("ACK\n".data))] := by
  decide

/-- C8 amended: each processed frame is acknowledged (`ACK\n` by the GUI's
`SensorServer`, bare `ACK` by `NetworkServer`) iff it decodes to a JSON
object, and on a failing frame no acknowledgement is sent for it.  After a
frame that is not valid JSON both loops continue with the next frame, and
the GUI handler continues after every failing frame; but after a frame
that decodes to a non-object JSON value, `NetworkServer`'s handler
terminates the connection and processes no later frame — such a frame can
only ever be the last one processed. -/
theorem c8_ack_iff_object_and_non_object_aborts_net
    (parse : Str → ParseOutcome) (chunks : List Str) (f : Str) (resp : Option Str) :
    ((f, resp) ∈ SensorServer.handle_client parse chunks →
      resp = ackForObject ("ACK\n".data) (parse f)) ∧
    ((f, resp) ∈ NetworkServer.handle_client parse chunks →
      resp = ackForObject ("ACK".data) (parse f)) ∧
    (∀ p ∈ (NetworkServer.handle_client parse chunks).dropLast,
      (parse p.1).isNonObject = false) :=
  ⟨fun h => gui_recvLoop_resp parse chunks [] f resp h,
   fun h => net_recvLoop_resp parse chunks [] f resp h,
   fun p hp => net_recvLoop_nonObject_only_last parse chunks [] p hp⟩

/-- Witness for C8 amended: one connection delivering two undecodable
frames and then an object frame; the object frame is the only one
acknowledged, and every processed frame before the last is not a
non-object frame. -/
theorem c8_ack_iff_object_and_non_object_aborts_net_witness :
    some ("ACK\n".data) = ackForObject ("ACK\n".data) (sampleParse "ok".data) ∧
    (none : Option Str) = ackForObject ("ACK".data) (sampleParse "b".data) ∧
    (sampleParse "a".data).isNonObject = false :=
  ⟨(c8_ack_iff_object_and_non_object_aborts_net sampleParse ["a\nb\nok\n".data]
      "ok".data (some ("ACK\n".data))).1 (by decide),
   (c8_ack_iff_object_and_non_object_aborts_net sampleParse ["a\nb\nok\n".data]
      "b".data none).2.1 (by decide),
   (c8_ack_iff_object_and_non_object_aborts_net sampleParse ["a\nb\nok\n".data]
      "x".data none).2.2 ("a".data, none) (by decide)⟩

/-! ## Claim C5 -/

/-- C5: the retention sweep deletes exactly the archive (`.zip`) entries
whose timestamp — parsed from the name suffix, or the file's modification
time when the suffix is unparsable — is strictly older than
`now - retention_days`, and retains every entry that is not older. -/
theorem c5_retention_sweep_exact (now : Int) (retention_days : Nat)
    (files : List Logger.ArchiveFile) (f : Logger.ArchiveFile) :
    f ∈ Logger.delete_old_logs now retention_days files ↔
      f ∈ files ∧
      ¬(strEndsWith f.name ".zip".data = true ∧
        Logger.fileDate f < now - (retention_days : Int) * 86400) := by
  unfold Logger.delete_old_logs
  rw [List.mem_filter]
  simp
  intro _
  cases hz : strEndsWith f.name ".zip".data <;> simp [hz]

/-! ## Claim C10 -/

/-- Counterexample to C10: a message with *no* identifier key at all but a
valid numeric value is not dropped — `add_reading` stores it under the
`None` dictionary key, so the buffer's state does change. -/
theorem c10_missing_identifier_is_stored_counterexample :
    SensorDataBuffer.add_reading SensorDataBuffer.init
        { value := some (.num 5), unit := some "C".data } 7
      ≠ SensorDataBuffer.init ∧
    SensorDataBuffer.histOf
        (SensorDataBuffer.add_reading SensorDataBuffer.init
          { value := some (.num 5), unit := some "C".data } 7) none
      = [(7, 5, some "C".data)] := by
  decide

/-- C10 amended: `add_reading` never raises (every exception of its body is
caught) and a message with a non-numeric or missing value, or an unparsable
timestamp, is dropped with the buffer left completely unchanged; a missing
identifier alone, however, is *not* malformed — the reading is stored under
the `None` key. -/
theorem c10_malformed_value_or_timestamp_leaves_buffer_unchanged
    (b : SensorDataBuffer) (m : Msg) (now : Nat)
    (h : (∃ e, pyFloat m.value = Except.error e) ∨
         (∃ s, m.timestamp = some s ∧ s ≠ [] ∧ natParse s = none)) :
    b.add_reading m now = b := by
  unfold SensorDataBuffer.add_reading SensorDataBuffer.add_readingChecked
  rcases h with ⟨e, he⟩ | ⟨s, hs, hne, hp⟩
  · simp [he]
  · cases hval : pyFloat m.value with
    | error e => simp [hval]
    | ok v => simp [hval, hs, hne, hp]

/-- Witness for C10 amended: a message whose value is a non-numeric string
is dropped without touching the buffer. -/
theorem c10_malformed_value_or_timestamp_leaves_buffer_unchanged_witness :
    SensorDataBuffer.add_reading SensorDataBuffer.init
        { sensor_id := some "T1".data, value := some (.str "oops".data) } 3
      = SensorDataBuffer.init :=
  c10_malformed_value_or_timestamp_leaves_buffer_unchanged
    SensorDataBuffer.init { sensor_id := some "T1".data, value := some (.str "oops".data) } 3
    (Or.inl ⟨PyExc.valueError, rfl⟩)

/-! ## Claim C4 -/

lemma takeLast_all (n : Nat) (l : List α) (h : l.length ≤ n) : takeLast n l = l := by
  unfold takeLast
  rw [Nat.sub_eq_zero_of_le h, List.drop_zero]

lemma trim_takeLast {α : Type} (C : Nat) (hC : 0 < C) (l : List α) (e : α) :
    (if C < (takeLast C l ++ [e]).length
     then pySliceLastN (takeLast C l ++ [e]) C
     else takeLast C l ++ [e]) = takeLast C (l ++ [e]) := by
  have hlen : (takeLast C l).length = l.length - (l.length - C) := by
    unfold takeLast; rw [List.length_drop]
  by_cases h : l.length < C
  · rw [if_neg (by rw [List.length_append, hlen]; simp; omega)]
    rw [takeLast_all C l (by omega), takeLast_all C (l ++ [e]) (by simp; omega)]
  · push_neg at h
    have hlenC : (takeLast C l).length = C := by omega
    rw [if_pos (by rw [List.length_append, hlenC]; simp)]
    unfold pySliceLastN
    rw [if_neg (by omega)]
    have key : ∀ (x : List α),
        takeLast C (x ++ [e]) = x.drop (x.length + 1 - C) ++ [e] := by
      intro x
      unfold takeLast
      rw [List.length_append, List.length_singleton,
          List.drop_append_eq_append_drop]
      rw [show x.length + 1 - C - x.length = 0 from by omega, List.drop_zero]
    rw [key l, key (takeLast C l)]
    unfold takeLast
    rw [List.length_drop, List.drop_drop]
    congr 2
    omega

lemma add_reading_valid (b : SensorDataBuffer) (sid : Str) (t : Nat) (v : Int)
    (u : Str) (now : Nat) :
    b.add_reading (validMsg sid t v u) now =
      { b with
        data :=
          setAssoc b.data (some sid)
            (if b.max_history_length < (b.histOf (some sid) ++ [(t, v, some u)]).length
             then pySliceLastN (b.histOf (some sid) ++ [(t, v, some u)]) b.max_history_length
             else b.histOf (some sid) ++ [(t, v, some u)]) } := by
  unfold SensorDataBuffer.add_reading SensorDataBuffer.add_readingChecked validMsg
  simp [pyOr, pyTruthy, pyFloat, natEncode_ne_nil, natParse_natEncode,
        SensorDataBuffer.histOf]

lemma add_reading_valid_histOf (b : SensorDataBuffer) (sid : Str) (t : Nat) (v : Int)
    (u : Str) (now : Nat) (hC : 0 < b.max_history_length) (acc : List Entry)
    (hacc : b.histOf (some sid) = takeLast b.max_history_length acc) :
    (b.add_reading (validMsg sid t v u) now).histOf (some sid)
      = takeLast b.max_history_length (acc ++ [(t, v, some u)]) := by
  rw [add_reading_valid]
  simp only [SensorDataBuffer.histOf] at hacc ⊢
  simp only [lookupAssoc_setAssoc_self, Option.getD_some]
  rw [hacc]
  exact trim_takeLast b.max_history_length hC acc (t, v, some u)

lemma add_reading_preserves_cap (b : SensorDataBuffer) (m : Msg) (now : Nat) :
    (b.add_reading m now).max_history_length = b.max_history_length := by
  unfold SensorDataBuffer.add_reading SensorDataBuffer.add_readingChecked
  cases pyFloat m.value with
  | error e => rfl
  | ok v =>
    cases m.timestamp with
    | none => rfl
    | some s =>
      by_cases hs : s = []
      · simp [hs]
      · cases hp : natParse s <;> simp [hs, hp]

lemma feedBuffer_invariant (C : Nat) (hC : 0 < C) (sid : Str) :
    ∀ (items : List (Nat × Int × Str)) (b : SensorDataBuffer) (acc : List Entry),
      b.max_history_length = C →
      b.histOf (some sid) = takeLast C acc →
      (items.foldl (fun b it => b.add_reading (validMsg sid it.1 it.2.1 it.2.2) 0) b).histOf
          (some sid)
        = takeLast C (acc ++ entriesOf items) := by
  intro items
  induction items with
  | nil => intro b acc hmax hacc; simpa [entriesOf] using hacc
  | cons it rest ih =>
    intro b acc hmax hacc
    simp only [List.foldl_cons]
    have hstep := add_reading_valid_histOf b sid it.1 it.2.1 it.2.2 0
      (hmax ▸ hC) acc (hmax ▸ hacc)
    have hmax' := add_reading_preserves_cap b (validMsg sid it.1 it.2.1 it.2.2) 0
    have := ih (b.add_reading (validMsg sid it.1 it.2.1 it.2.2) 0)
      (acc ++ [(it.1, it.2.1, some it.2.2)])
      (hmax'.trans hmax) (by rw [hstep, hmax])
    rw [this]
    simp [entriesOf]

/-- C4: for any sequence of `N` readings appended for one source through
`add_reading` with history cap `C > 0` (the constructor's default cap is
100), the stored history is exactly the last `min(N, C)` appended readings
in arrival order, and its length is `min(N, C) ≤ C`. -/
theorem c4_history_is_last_min_N_C (C : Nat) (hC : 0 < C) (sid : Str)
    (items : List (Nat × Int × Str)) :
    (feedBuffer C sid items).histOf (some sid) = takeLast C (entriesOf items) ∧
    ((feedBuffer C sid items).histOf (some sid)).length = min items.length C ∧
    SensorDataBuffer.init.max_history_length = 100 := by
  have hmain : (feedBuffer C sid items).histOf (some sid) = takeLast C (entriesOf items) := by
    have := feedBuffer_invariant C hC sid items
      { data := [], max_history_length := C } []
      rfl (by unfold SensorDataBuffer.histOf lookupAssoc takeLast; simp)
    simpa [feedBuffer] using this
  refine ⟨hmain, ?_, rfl⟩
  rw [hmain]
  rw [length_takeLast]
  unfold entriesOf
  rw [List.length_map]
  omega

/-- Witness for C4: three readings through a cap-2 buffer leave exactly the
last two, in arrival order. -/
theorem c4_history_is_last_min_N_C_witness :
    (feedBuffer 2 "S".data [(1, 10, "u".data), (2, 20, "u".data), (3, 30, "u".data)]).histOf
        (some "S".data)
      = takeLast 2 (entriesOf [(1, 10, "u".data), (2, 20, "u".data), (3, 30, "u".data)]) ∧
    ((feedBuffer 2 "S".data [(1, 10, "u".data), (2, 20, "u".data), (3, 30, "u".data)]).histOf
        (some "S".data)).length = min 3 2 ∧
    SensorDataBuffer.init.max_history_length = 100 :=
  c4_history_is_last_min_N_C 2 (by decide) "S".data
    [(1, 10, "u".data), (2, 20, "u".data), (3, 30, "u".data)]

/-! ## Claim C1 -/

/-- Counterexample to C1: a concrete well-formed message accepted by the
server's data path lands in the Live Buffer while the Durable Logger —
freshly started, so holding nothing but its header — is left untouched:
the accepted reading is reflected in exactly one of the two sinks, not in
both and not in neither. -/
theorem c1_partial_fanout_counterexample :
    (ServerSide.handle_data_from_server_thread
        ⟨SensorDataBuffer.init, [], Logger.start (Logger.init {} 0)⟩
        (validMsg "T1".data 5 2 "C".data) 7).buffer.histOf (some "T1".data)
      = [(5, 2, some "C".data)] ∧
    (ServerSide.handle_data_from_server_thread
        ⟨SensorDataBuffer.init, [], Logger.start (Logger.init {} 0)⟩
        (validMsg "T1".data 5 2 "C".data) 7).logger
      = Logger.start (Logger.init {} 0) ∧
    ¬ ServerSide.loggerHolds
        (ServerSide.handle_data_from_server_thread
          ⟨SensorDataBuffer.init, [], Logger.start (Logger.init {} 0)⟩
          (validMsg "T1".data 5 2 "C".data) 7).logger
        (Logger.mkRow ⟨"T1".data, 5, "2".data, "C".data⟩) := by
  refine ⟨by decide, rfl, by decide⟩

/-- C1 amended: a validated inbound message is reflected in the Live Buffer
only; the server's data path (`handle_data_from_server_thread`) never
touches the Durable Logger — in server mode readings are durably logged
only by the sending client process — so an accepted message is applied to
exactly one of the two sinks. -/
theorem c1_accepted_message_updates_live_buffer_only (st : ServerSide)
    (sid : Str) (t : Nat) (v : Int) (u : Str) (now : Nat)
    (h : (st.buffer.histOf (some sid)).length < st.buffer.max_history_length) :
    (ServerSide.handle_data_from_server_thread st (validMsg sid t v u) now).logger
      = st.logger ∧
    (ServerSide.handle_data_from_server_thread st (validMsg sid t v u) now).buffer.histOf
        (some sid)
      = st.buffer.histOf (some sid) ++ [(t, v, some u)] := by
  constructor
  · rfl
  · show ((st.buffer.add_reading (validMsg sid t v u) now)).histOf (some sid) = _
    rw [add_reading_valid]
    unfold SensorDataBuffer.histOf
    simp only [lookupAssoc_setAssoc_self, Option.getD_some]
    rw [if_neg]
    rw [List.length_append, List.length_singleton]
    unfold SensorDataBuffer.histOf at h
    omega

/-- Witness for C1 amended: the concrete accepted message above, applied to
a fresh buffer and a freshly started logger. -/
theorem c1_accepted_message_updates_live_buffer_only_witness :
    (ServerSide.handle_data_from_server_thread
        ⟨SensorDataBuffer.init, [], Logger.start (Logger.init {} 0)⟩
        (validMsg "T1".data 5 2 "C".data) 7).logger
      = Logger.start (Logger.init {} 0) ∧
    (ServerSide.handle_data_from_server_thread
        ⟨SensorDataBuffer.init, [], Logger.start (Logger.init {} 0)⟩
        (validMsg "T1".data 5 2 "C".data) 7).buffer.histOf (some "T1".data)
      = SensorDataBuffer.histOf SensorDataBuffer.init (some "T1".data)
        ++ [(5, 2, some "C".data)] :=
  c1_accepted_message_updates_live_buffer_only
    ⟨SensorDataBuffer.init, [], Logger.start (Logger.init {} 0)⟩
    "T1".data 5 2 "C".data 7 (by decide)

/-! ## Claim C7 -/

/-- Counterexample to C7: with the empty-string filter — a given filter —
`read_logs` still yields a row whose `sensor_id` is `T1 ≠ ""`, because the
Python guard `not sensor_id or ...` treats an empty filter like no filter. -/
theorem c7_empty_filter_counterexample :
    Logger.read_logs
        [[Logger.header, [natEncode 5, "T1".data, "1".data, "C".data]]] [] 0 9 (some [])
      = [⟨natEncode 5, "T1".data, "1".data, "C".data⟩] ∧
    ("T1".data : Str) ≠ ([] : Str) := by
  constructor
  · decide
  · decide

lemma sensorMatches_true_iff (filt : Option Str) (sid : Str)
    (hf : ∀ f, filt = some f → f ≠ []) :
    Logger.sensorMatches filt sid = true ↔ (∀ f, filt = some f → sid = f) := by
  cases filt with
  | none => simp [Logger.sensorMatches]
  | some f =>
    have hne := hf f rfl
    simp [Logger.sensorMatches, hne]

lemma rowFilter_eq_some (a b : Nat) (filt : Option Str) (rec : Rec) (d : Logger.RowDict) :
    Logger.rowFilter a b filt rec = some d ↔
      Logger.recToDict rec = some d ∧
      ∃ ts, natParse d.timestamp = some ts ∧ a ≤ ts ∧ ts ≤ b ∧
        Logger.sensorMatches filt d.sensor_id = true := by
  unfold Logger.rowFilter
  cases hrd : Logger.recToDict rec with
  | none => simp
  | some d' =>
    cases hts : natParse d'.timestamp with
    | none =>
      simp only [hts]
      constructor
      · intro h; cases h
      · rintro ⟨hd, ts, hts', _⟩
        cases hd
        rw [hts'] at hts
        cases hts
    | some ts =>
      simp only [hts]
      by_cases hcond : a ≤ ts ∧ ts ≤ b ∧ Logger.sensorMatches filt d'.sensor_id = true
      · rw [if_pos hcond]
        constructor
        · intro h
          cases h
          exact ⟨rfl, ts, hts, hcond.1, hcond.2.1, hcond.2.2⟩
        · rintro ⟨hd, _⟩
          cases hd
          rfl
      · rw [if_neg hcond]
        constructor
        · intro h; cases h
        · rintro ⟨hd, ts', hts', h1, h2, h3⟩
          cases hd
          rw [hts'] at hts
          cases hts
          exact absurd ⟨h1, h2, h3⟩ hcond

lemma mem_parse_csv (file : List Rec) (a b : Nat) (filt : Option Str) (d : Logger.RowDict) :
    d ∈ Logger.parse_csv file a b filt ↔
      ∃ rec ∈ file.drop 1, Logger.rowFilter a b filt rec = some d := by
  cases file with
  | nil => simp [Logger.parse_csv]
  | cons hdr rows => simp [Logger.parse_csv, List.mem_filterMap]

/-- C7 amended: for every range and every *non-empty* source filter (or no
filter at all), `read_logs` yields exactly the rows — from every live
segment file and every `.csv` member of every archive container — whose
timestamp parses to an instant in the inclusive `[start, end]` range and
whose `sensor_id` equals the filter when one is given; rows with unparsable
timestamps are skipped without aborting the scan.  An empty-string filter,
by contrast, behaves like no filter. -/
theorem c7_range_query_yields_exactly_matching_rows
    (csvFiles : List (List Rec)) (zipFiles : List (List Logger.ZipEntry))
    (a b : Nat) (filt : Option Str) (hf : ∀ f, filt = some f → f ≠ [])
    (d : Logger.RowDict) :
    d ∈ Logger.read_logs csvFiles zipFiles a b filt ↔
      (∃ ts, natParse d.timestamp = some ts ∧ a ≤ ts ∧ ts ≤ b) ∧
      (∀ f, filt = some f → d.sensor_id = f) ∧
      ((∃ file ∈ csvFiles, ∃ rec ∈ file.drop 1, Logger.recToDict rec = some d) ∨
       (∃ z ∈ zipFiles, ∃ e ∈ z, strEndsWith e.1 ".csv".data = true ∧
          ∃ rec ∈ e.2.drop 1, Logger.recToDict rec = some d)) := by
  unfold Logger.read_logs Logger.parse_zip
  rw [List.mem_append]
  simp only [List.mem_flatMap, List.mem_filter, mem_parse_csv, rowFilter_eq_some,
    sensorMatches_true_iff filt _ hf]
  constructor
  · rintro (⟨file, hfile, rec, hrec, hput, ts, hts, h1, h2, h3⟩ |
            ⟨z, hz, e, ⟨he, hcsv⟩, rec, hrec, hput, ts, hts, h1, h2, h3⟩)
    · exact ⟨⟨ts, hts, h1, h2⟩, h3, Or.inl ⟨file, hfile, rec, hrec, hput⟩⟩
    · exact ⟨⟨ts, hts, h1, h2⟩, h3, Or.inr ⟨z, hz, e, he, hcsv, rec, hrec, hput⟩⟩
  · rintro ⟨⟨ts, hts, h1, h2⟩, h3,
            ⟨file, hfile, rec, hrec, hput⟩ | ⟨z, hz, e, he, hcsv, rec, hrec, hput⟩⟩
    · exact Or.inl ⟨file, hfile, rec, hrec, hput, ts, hts, h1, h2, h3⟩
    · exact Or.inr ⟨z, hz, e, ⟨he, hcsv⟩, rec, hrec, hput, ts, hts, h1, h2, h3⟩

/-- Witness for C7 amended: a two-row segment and a one-row archive scanned
with the non-empty filter `T1` yield the matching row of the archive. -/
theorem c7_range_query_yields_exactly_matching_rows_witness :
    (⟨natEncode 5, "T1".data, "1".data, "C".data⟩ : Logger.RowDict) ∈
      Logger.read_logs
        [[Logger.header, [natEncode 20, "T1".data, "9".data, "C".data]]]
        [[("seg.csv".data, [Logger.header, [natEncode 5, "T1".data, "1".data, "C".data]])]]
        0 9 (some "T1".data) :=
  (c7_range_query_yields_exactly_matching_rows
      [[Logger.header, [natEncode 20, "T1".data, "9".data, "C".data]]]
      [[("seg.csv".data, [Logger.header, [natEncode 5, "T1".data, "1".data, "C".data]])]]
      0 9 (some "T1".data) (by intro f h; cases h; decide)
      ⟨natEncode 5, "T1".data, "1".data, "C".data⟩).mpr
    ⟨⟨5, by decide, by decide, by decide⟩,
     by intro f h; cases h; rfl,
     Or.inr
       ⟨[("seg.csv".data, [Logger.header, [natEncode 5, "T1".data, "1".data, "C".data]])],
        by decide,
        ("seg.csv".data, [Logger.header, [natEncode 5, "T1".data, "1".data, "C".data]]),
        by decide, by decide,
        [natEncode 5, "T1".data, "1".data, "C".data],
        by decide, by decide⟩⟩

/-! ## Claim C3 -/

lemma needs_rotation_false (s : Logger.State)
    (ht : s.now - s.last_rotation_time < (s.config.rotate_every_hours : Int) * 3600)
    (hsz : Logger.fileSizeBytes s.fileRows < s.config.max_size_mb * 1048576)
    (hl : ∀ n, s.config.rotate_after_lines = some n → 0 < n → s.line_count < n) :
    Logger.needs_rotation s = false := by
  unfold Logger.needs_rotation
  have e1 : decide ((s.config.rotate_every_hours : Int) * 3600 ≤ s.now - s.last_rotation_time)
      = false := by simp; omega
  have e2 : decide (s.config.max_size_mb * 1048576 ≤ Logger.fileSizeBytes s.fileRows)
      = false := by simp; omega
  rw [e1, e2]
  rcases hcfg : s.config.rotate_after_lines with _ | n
  · simp
  · rcases Nat.eq_zero_or_pos n with h0 | hpos
    · subst h0; simp
    · have hlt := hl n hcfg hpos
      have e3 : decide (n ≤ s.line_count) = false := by simp; omega
      simp [e3]

lemma needs_rotation_true_of_lines (s : Logger.State) (n : Nat)
    (hc : s.config.rotate_after_lines = some n) (hn : 0 < n)
    (hl : n ≤ s.line_count) :
    Logger.needs_rotation s = true := by
  unfold Logger.needs_rotation
  rw [hc]
  have e1 : decide (0 < n) = true := by simp [hn]
  have e2 : decide (n ≤ s.line_count) = true := by simp [hl]
  simp [e1, e2]

/-- C3: for every reading `r`, running `log_reading(r)`, `flush()`, `stop()`
on a freshly started default-configured logger and then querying any range
`[a, b]` containing `r`'s timestamp returns exactly one row whose source,
value and unit equal `r`'s, and whose stored timestamp parses back to
exactly `r`'s instant. -/
theorem c3_log_flush_stop_query_round_trip (t0 : Int) (r : Logger.Reading) (a b : Nat)
    (h1 : a ≤ r.timestamp) (h2 : r.timestamp ≤ b) :
    Logger.read_logs
        [(Logger.stop (Logger.flush
            (Logger.log_reading (Logger.start (Logger.init {} t0)) r))).fileRows]
        [] a b none
      = [⟨natEncode r.timestamp, r.sensor_id, r.value, r.unit⟩] ∧
    natParse (natEncode r.timestamp) = some r.timestamp := by
  have hstart : Logger.start (Logger.init {} t0)
      = ⟨{}, [], true, true, true, [Logger.header], [], t0, 0, t0⟩ := rfl
  have hnr : Logger.needs_rotation
      ⟨{}, [Logger.mkRow r], true, true, true, [Logger.header], [], t0, 0, t0⟩ = false := by
    refine needs_rotation_false _ ?_ ?_ (fun n hn => by cases hn)
    · show t0 - t0 < ((24:Nat) : Int) * 3600
      omega
    · show Logger.fileSizeBytes [Logger.header] < 10 * 1048576
      decide
  have hmid : Logger.logMid (Logger.start (Logger.init {} t0)) r
      = ⟨{}, [Logger.mkRow r], true, true, true, [Logger.header], [], t0, 0, t0⟩ := rfl
  have hlog : Logger.log_reading (Logger.start (Logger.init {} t0)) r
      = ⟨{}, [Logger.mkRow r], true, true, true, [Logger.header], [], t0, 0, t0⟩ := by
    rw [Logger.log_reading, hmid, hnr]
    simp
  have hflush : Logger.flush
      ⟨{}, [Logger.mkRow r], true, true, true, [Logger.header], [], t0, 0, t0⟩
      = ⟨{}, [], true, true, true, [Logger.header, Logger.mkRow r], [], t0, 1, t0⟩ := rfl
  have hstop : Logger.stop
      ⟨{}, [], true, true, true, [Logger.header, Logger.mkRow r], [], t0, 1, t0⟩
      = ⟨{}, [], true, false, true, [Logger.header, Logger.mkRow r], [], t0, 1, t0⟩ := rfl
  rw [hlog, hflush, hstop]
  refine ⟨?_, natParse_natEncode r.timestamp⟩
  have hrow : Logger.rowFilter a b none (Logger.mkRow r)
      = some ⟨natEncode r.timestamp, r.sensor_id, r.value, r.unit⟩ :=
    (rowFilter_eq_some a b none (Logger.mkRow r) _).mpr
      ⟨rfl, r.timestamp, natParse_natEncode r.timestamp, h1, h2, rfl⟩
  show Logger.read_logs [[Logger.header, Logger.mkRow r]] [] a b none = _
  unfold Logger.read_logs Logger.parse_csv
  simp [List.filterMap_cons, hrow]

/-- Witness for C3: a concrete reading at instant 5 queried over `[0, 9]`. -/
theorem c3_log_flush_stop_query_round_trip_witness :
    Logger.read_logs
        [(Logger.stop (Logger.flush
            (Logger.log_reading (Logger.start (Logger.init {} 0))
              ⟨"T1".data, 5, "21.5".data, "C".data⟩))).fileRows]
        [] 0 9 none
      = [⟨natEncode 5, "T1".data, "21.5".data, "C".data⟩] ∧
    natParse (natEncode 5) = some 5 :=
  c3_log_flush_stop_query_round_trip 0 ⟨"T1".data, 5, "21.5".data, "C".data⟩ 0 9
    (by decide) (by decide)

/-! ## Claim C6 -/

lemma flush_writerSet (s : Logger.State) : (Logger.flush s).writerSet = s.writerSet := by
  unfold Logger.flush
  split <;> rfl

lemma flush_filePresent (s : Logger.State) : (Logger.flush s).filePresent = s.filePresent := by
  unfold Logger.flush
  split <;> rfl

lemma flush_archives (s : Logger.State) : (Logger.flush s).archives = s.archives := by
  unfold Logger.flush
  split <;> rfl

lemma flush_content (s : Logger.State) (hw : s.writerSet = true) :
    (Logger.flush s).fileRows = s.fileRows ++ s.buffer ∧ (Logger.flush s).buffer = [] := by
  unfold Logger.flush
  by_cases hb : s.buffer = []
  · rw [if_neg (by simp [hb])]
    simp [hb]
  · rw [if_pos ⟨hw, hb⟩]
    exact ⟨rfl, rfl⟩

lemma stop_fields (s : Logger.State) (hw : s.writerSet = true) :
    (Logger.stop s).fileRows = s.fileRows ++ s.buffer ∧
    (Logger.stop s).buffer = [] ∧
    (Logger.stop s).filePresent = s.filePresent ∧
    (Logger.stop s).archives = s.archives := by
  unfold Logger.stop
  obtain ⟨h1, h2⟩ := flush_content s hw
  have h3 := flush_filePresent s
  have h4 := flush_archives s
  split <;> simp [h1, h2, h3, h4]

lemma rotate_archives_mem (s : Logger.State) (hw : s.writerSet = true)
    (hp : s.filePresent = true) (row : Rec) (hrow : row ∈ s.fileRows ++ s.buffer) :
    row ∈ (Logger.rotate s).archives.flatten ∧ (Logger.rotate s).buffer = [] := by
  unfold Logger.rotate
  obtain ⟨hf, hb, hfp, har⟩ := stop_fields s hw
  rw [if_pos (hfp.trans hp)]
  refine ⟨?_, ?_⟩
  · show row ∈ ((Logger.stop s).archives ++ [(Logger.stop s).fileRows]).flatten
    rw [List.mem_flatten]
    exact ⟨(Logger.stop s).fileRows, by simp, by rw [hf]; exact hrow⟩
  · show (Logger.stop s).buffer = []
    exact hb

/-- C6: in `log_reading` a batch that has reached `buffer_size` is flushed
and the rotation trigger is evaluated only after that flush (the method is
literally that conditional); consequently, whenever the arrival of `r`
triggers a rotation, `r`'s row ends up durably in the rotated (old) or the
fresh (new) segment — here in fact always in the just-archived old segment
— and the in-memory batch is empty, so the triggering reading is never
lost. -/
theorem c6_flush_precedes_rotation_and_trigger_row_is_durable
    (s : Logger.State) (r : Logger.Reading)
    (hw : s.writerSet = true) (hp : s.filePresent = true) :
    Logger.log_reading s r
      = (if Logger.needs_rotation (Logger.logMid s r)
         then Logger.rotate (Logger.logMid s r) else Logger.logMid s r) ∧
    (Logger.needs_rotation (Logger.logMid s r) = true →
      (Logger.mkRow r ∈ (Logger.log_reading s r).archives.flatten ∨
       Logger.mkRow r ∈ (Logger.log_reading s r).fileRows) ∧
      (Logger.log_reading s r).buffer = []) := by
  have heq : Logger.log_reading s r
      = (if Logger.needs_rotation (Logger.logMid s r)
         then Logger.rotate (Logger.logMid s r) else Logger.logMid s r) := rfl
  refine ⟨heq, fun hrot => ?_⟩
  rw [heq, if_pos hrot]
  have hmw : (Logger.logMid s r).writerSet = true := by
    unfold Logger.logMid
    split
    · rw [flush_writerSet]; exact hw
    · exact hw
  have hmp : (Logger.logMid s r).filePresent = true := by
    unfold Logger.logMid
    split
    · rw [flush_filePresent]; exact hp
    · exact hp
  have hmrow : Logger.mkRow r ∈ (Logger.logMid s r).fileRows ++ (Logger.logMid s r).buffer := by
    unfold Logger.logMid
    split
    · obtain ⟨h1, h2⟩ := flush_content { s with buffer := s.buffer ++ [Logger.mkRow r] } hw
      rw [h1, h2]
      simp
    · simp
  obtain ⟨hmem, hbuf⟩ :=
    rotate_archives_mem (Logger.logMid s r) hmw hmp (Logger.mkRow r) hmrow
  exact ⟨Or.inl hmem, hbuf⟩

/-- Witness for C6: with `buffer_size = 1` and `rotate_after_lines = 1` the
very first reading triggers a rotation and its row is durable in the
archived segment while the batch is empty. -/
theorem c6_flush_precedes_rotation_and_trigger_row_is_durable_witness :
    Logger.needs_rotation
        (Logger.logMid (Logger.start (Logger.init ⟨1, 24, 10, some 1, 30⟩ 0))
          ⟨"T1".data, 3, "7".data, "C".data⟩) = true ∧
    ((Logger.mkRow ⟨"T1".data, 3, "7".data, "C".data⟩ ∈
        (Logger.log_reading (Logger.start (Logger.init ⟨1, 24, 10, some 1, 30⟩ 0))
          ⟨"T1".data, 3, "7".data, "C".data⟩).archives.flatten ∨
      Logger.mkRow ⟨"T1".data, 3, "7".data, "C".data⟩ ∈
        (Logger.log_reading (Logger.start (Logger.init ⟨1, 24, 10, some 1, 30⟩ 0))
          ⟨"T1".data, 3, "7".data, "C".data⟩).fileRows) ∧
     (Logger.log_reading (Logger.start (Logger.init ⟨1, 24, 10, some 1, 30⟩ 0))
        ⟨"T1".data, 3, "7".data, "C".data⟩).buffer = []) :=
  ⟨by decide,
   (c6_flush_precedes_rotation_and_trigger_row_is_durable
      (Logger.start (Logger.init ⟨1, 24, 10, some 1, 30⟩ 0))
      ⟨"T1".data, 3, "7".data, "C".data⟩ rfl rfl).2 (by decide)⟩

/-! ## Claim C2 -/

/-- Counterexample to C2: with `rotate_after_lines = 3` but the *default*
`buffer_size = 100`, four readings never reach a flush, `line_count` stays
0, no rotation fires: nothing is archived and the segment still holds only
the header — not `header+r1,r2,r3` archived plus `header+r4`. -/
theorem c2_default_buffer_size_defers_rotation_counterexample :
    (Logger.log_reading (Logger.log_reading (Logger.log_reading (Logger.log_reading
        (Logger.start (Logger.init ⟨100, 24, 10, some 3, 30⟩ 0))
        ⟨"S".data, 1, "1".data, "C".data⟩)
        ⟨"S".data, 2, "1".data, "C".data⟩)
        ⟨"S".data, 3, "1".data, "C".data⟩)
        ⟨"S".data, 4, "1".data, "C".data⟩).archives = [] ∧
    (Logger.log_reading (Logger.log_reading (Logger.log_reading (Logger.log_reading
        (Logger.start (Logger.init ⟨100, 24, 10, some 3, 30⟩ 0))
        ⟨"S".data, 1, "1".data, "C".data⟩)
        ⟨"S".data, 2, "1".data, "C".data⟩)
        ⟨"S".data, 3, "1".data, "C".data⟩)
        ⟨"S".data, 4, "1".data, "C".data⟩).fileRows = [Logger.header] := by
  decide

/-- The C2 run: a logger with `buffer_size = 1` (every reading is flushed as
it arrives) and `rotate_after_lines = 3`, fed the four readings in order
from a fresh start at instant `t0`. -/
def c2state (t0 : Int) (r1 r2 r3 r4 : Logger.Reading) : Logger.State :=
  Logger.log_reading (Logger.log_reading (Logger.log_reading (Logger.log_reading
    (Logger.start (Logger.init ⟨1, 24, 10, some 3, 30⟩ t0)) r1) r2) r3) r4

/-- C2 amended: the claimed rotation boundary holds once every reading is
flushed on arrival (`buffer_size = 1`; with the default `buffer_size = 100`
the four rows would still sit in the unflushed batch and no rotation would
fire).  With `rotate_after_lines = 3`, after `r1..r4` the first segment —
containing exactly `header, r1, r2, r3` — has been archived and the fresh
second segment contains exactly `header, r4`.  The size bound keeps the
10-MB size trigger out of play. -/
theorem c2_rotation_after_three_lines_with_flush_per_reading (t0 : Int)
    (r1 r2 r3 r4 : Logger.Reading)
    (hsz : Logger.csvRecBytes (Logger.mkRow r1) + Logger.csvRecBytes (Logger.mkRow r2) +
           Logger.csvRecBytes (Logger.mkRow r3) + Logger.csvRecBytes (Logger.mkRow r4) +
           Logger.csvRecBytes Logger.header < 10485760) :
    (c2state t0 r1 r2 r3 r4).archives
      = [[Logger.header, Logger.mkRow r1, Logger.mkRow r2, Logger.mkRow r3]] ∧
    (c2state t0 r1 r2 r3 r4).fileRows = [Logger.header, Logger.mkRow r4] ∧
    (c2state t0 r1 r2 r3 r4).buffer = [] := by
  have hb1 : 0 ≤ Logger.csvRecBytes (Logger.mkRow r1) := Nat.zero_le _
  -- step 1
  have hmid1 : Logger.logMid (Logger.start (Logger.init ⟨1, 24, 10, some 3, 30⟩ t0)) r1
      = ⟨⟨1, 24, 10, some 3, 30⟩, [], true, true, true,
         [Logger.header, Logger.mkRow r1], [], t0, 1, t0⟩ := rfl
  have hnr1 : Logger.needs_rotation
      (⟨⟨1, 24, 10, some 3, 30⟩, [], true, true, true,
        [Logger.header, Logger.mkRow r1], [], t0, 1, t0⟩ : Logger.State) = false := by
    refine needs_rotation_false _ ?_ ?_ (fun n hn hp => by cases hn; simp)
    · show t0 - t0 < ((24:Nat) : Int) * 3600
      omega
    · show Logger.fileSizeBytes [Logger.header, Logger.mkRow r1] < 10 * 1048576
      simp [Logger.fileSizeBytes]
      omega
  have hstep1 : Logger.log_reading (Logger.start (Logger.init ⟨1, 24, 10, some 3, 30⟩ t0)) r1
      = ⟨⟨1, 24, 10, some 3, 30⟩, [], true, true, true,
         [Logger.header, Logger.mkRow r1], [], t0, 1, t0⟩ := by
    rw [Logger.log_reading, hmid1, hnr1]
    simp
  -- step 2
  have hmid2 : Logger.logMid
      (⟨⟨1, 24, 10, some 3, 30⟩, [], true, true, true,
        [Logger.header, Logger.mkRow r1], [], t0, 1, t0⟩ : Logger.State) r2
      = ⟨⟨1, 24, 10, some 3, 30⟩, [], true, true, true,
         [Logger.header, Logger.mkRow r1, Logger.mkRow r2], [], t0, 2, t0⟩ := rfl
  have hnr2 : Logger.needs_rotation
      (⟨⟨1, 24, 10, some 3, 30⟩, [], true, true, true,
        [Logger.header, Logger.mkRow r1, Logger.mkRow r2], [], t0, 2, t0⟩ : Logger.State)
      = false := by
    refine needs_rotation_false _ ?_ ?_ (fun n hn hp => by cases hn; simp)
    · show t0 - t0 < ((24:Nat) : Int) * 3600
      omega
    · show Logger.fileSizeBytes
          [Logger.header, Logger.mkRow r1, Logger.mkRow r2] < 10 * 1048576
      simp [Logger.fileSizeBytes]
      omega
  have hstep2 : Logger.log_reading
      (⟨⟨1, 24, 10, some 3, 30⟩, [], true, true, true,
        [Logger.header, Logger.mkRow r1], [], t0, 1, t0⟩ : Logger.State) r2
      = ⟨⟨1, 24, 10, some 3, 30⟩, [], true, true, true,
         [Logger.header, Logger.mkRow r1, Logger.mkRow r2], [], t0, 2, t0⟩ := by
    rw [Logger.log_reading, hmid2, hnr2]
    simp
  -- step 3: the line-count trigger fires and the segment is archived
  have hmid3 : Logger.logMid
      (⟨⟨1, 24, 10, some 3, 30⟩, [], true, true, true,
        [Logger.header, Logger.mkRow r1, Logger.mkRow r2], [], t0, 2, t0⟩ : Logger.State) r3
      = ⟨⟨1, 24, 10, some 3, 30⟩, [], true, true, true,
         [Logger.header, Logger.mkRow r1, Logger.mkRow r2, Logger.mkRow r3], [], t0, 3, t0⟩ :=
    rfl
  have hnr3 : Logger.needs_rotation
      (⟨⟨1, 24, 10, some 3, 30⟩, [], true, true, true,
        [Logger.header, Logger.mkRow r1, Logger.mkRow r2, Logger.mkRow r3],
        [], t0, 3, t0⟩ : Logger.State) = true :=
    needs_rotation_true_of_lines _ 3 rfl (by omega) (le_refl 3)
  have hrotval : Logger.rotate
      (⟨⟨1, 24, 10, some 3, 30⟩, [], true, true, true,
        [Logger.header, Logger.mkRow r1, Logger.mkRow r2, Logger.mkRow r3],
        [], t0, 3, t0⟩ : Logger.State)
      = ⟨⟨1, 24, 10, some 3, 30⟩, [], true, true, true, [Logger.header],
         [[Logger.header, Logger.mkRow r1, Logger.mkRow r2, Logger.mkRow r3]], t0, 0, t0⟩ :=
    rfl
  have hstep3 : Logger.log_reading
      (⟨⟨1, 24, 10, some 3, 30⟩, [], true, true, true,
        [Logger.header, Logger.mkRow r1, Logger.mkRow r2], [], t0, 2, t0⟩ : Logger.State) r3
      = ⟨⟨1, 24, 10, some 3, 30⟩, [], true, true, true, [Logger.header],
         [[Logger.header, Logger.mkRow r1, Logger.mkRow r2, Logger.mkRow r3]], t0, 0, t0⟩ := by
    rw [Logger.log_reading, hmid3, hnr3]
    simp only [if_true]
    exact hrotval
  -- step 4
  have hmid4 : Logger.logMid
      (⟨⟨1, 24, 10, some 3, 30⟩, [], true, true, true, [Logger.header],
        [[Logger.header, Logger.mkRow r1, Logger.mkRow r2, Logger.mkRow r3]],
        t0, 0, t0⟩ : Logger.State) r4
      = ⟨⟨1, 24, 10, some 3, 30⟩, [], true, true, true,
         [Logger.header, Logger.mkRow r4],
         [[Logger.header, Logger.mkRow r1, Logger.mkRow r2, Logger.mkRow r3]],
         t0, 1, t0⟩ := rfl
  have hnr4 : Logger.needs_rotation
      (⟨⟨1, 24, 10, some 3, 30⟩, [], true, true, true,
        [Logger.header, Logger.mkRow r4],
        [[Logger.header, Logger.mkRow r1, Logger.mkRow r2, Logger.mkRow r3]],
        t0, 1, t0⟩ : Logger.State) = false := by
    refine needs_rotation_false _ ?_ ?_ (fun n hn hp => by cases hn; simp)
    · show t0 - t0 < ((24:Nat) : Int) * 3600
      omega
    · show Logger.fileSizeBytes [Logger.header, Logger.mkRow r4] < 10 * 1048576
      simp [Logger.fileSizeBytes]
      omega
  have hstep4 : Logger.log_reading
      (⟨⟨1, 24, 10, some 3, 30⟩, [], true, true, true, [Logger.header],
        [[Logger.header, Logger.mkRow r1, Logger.mkRow r2, Logger.mkRow r3]],
        t0, 0, t0⟩ : Logger.State) r4
      = ⟨⟨1, 24, 10, some 3, 30⟩, [], true, true, true,
         [Logger.header, Logger.mkRow r4],
         [[Logger.header, Logger.mkRow r1, Logger.mkRow r2, Logger.mkRow r3]],
         t0, 1, t0⟩ := by
    rw [Logger.log_reading, hmid4, hnr4]
    simp
  have hfinal : c2state t0 r1 r2 r3 r4
      = ⟨⟨1, 24, 10, some 3, 30⟩, [], true, true, true,
         [Logger.header, Logger.mkRow r4],
         [[Logger.header, Logger.mkRow r1, Logger.mkRow r2, Logger.mkRow r3]],
         t0, 1, t0⟩ := by
    unfold c2state
    rw [hstep1, hstep2, hstep3, hstep4]
  rw [hfinal]
  exact ⟨rfl, rfl, rfl⟩

/-- Witness for C2 amended: four concrete readings through the
`buffer_size = 1`, `rotate_after_lines = 3` logger. -/
theorem c2_rotation_after_three_lines_with_flush_per_reading_witness :
    (c2state 0 ⟨"S".data, 1, "1".data, "C".data⟩ ⟨"S".data, 2, "1".data, "C".data⟩
        ⟨"S".data, 3, "1".data, "C".data⟩ ⟨"S".data, 4, "1".data, "C".data⟩).archives
      = [[Logger.header, Logger.mkRow ⟨"S".data, 1, "1".data, "C".data⟩,
          Logger.mkRow ⟨"S".data, 2, "1".data, "C".data⟩,
          Logger.mkRow ⟨"S".data, 3, "1".data, "C".data⟩]] ∧
    (c2state 0 ⟨"S".data, 1, "1".data, "C".data⟩ ⟨"S".data, 2, "1".data, "C".data⟩
        ⟨"S".data, 3, "1".data, "C".data⟩ ⟨"S".data, 4, "1".data, "C".data⟩).fileRows
      = [Logger.header, Logger.mkRow ⟨"S".data, 4, "1".data, "C".data⟩] ∧
    (c2state 0 ⟨"S".data, 1, "1".data, "C".data⟩ ⟨"S".data, 2, "1".data, "C".data⟩
        ⟨"S".data, 3, "1".data, "C".data⟩ ⟨"S".data, 4, "1".data, "C".data⟩).buffer = [] :=
  c2_rotation_after_three_lines_with_flush_per_reading 0
    ⟨"S".data, 1, "1".data, "C".data⟩ ⟨"S".data, 2, "1".data, "C".data⟩
    ⟨"S".data, 3, "1".data, "C".data⟩ ⟨"S".data, 4, "1".data, "C".data⟩ (by decide)
